import Mathlib

/-!
Shallow embedding of the real-time collaborative-session subsystem of the
`dine` repository (Express + WebSocket restaurant table-ordering server).

The embedding follows the ownership-validated revision of
`src/server/demo-routes.ts` (the revision that defines
`validateAuthToken` / `validateRestaurantOwnership` and the authorized
`subscribe` / `cart_update` WebSocket handlers), the storage layer
`src/server/storage.ts`, and the shared schema (`secureOrderSchema` and
the table definitions).  Time is modelled as natural-number milliseconds,
SQL `decimal(10,2)` amounts exactly as integer
numbers of hundredths (cents) so that every operation is computable, WebSocket connections as natural-number ids,
and the in-memory `clients` map as an association list with set semantics.
-/

namespace Dine

/-! ## Data model (shared schema) -/

/-- One entry of a collaborative cart (`cartData.items`). -/
structure CartItem where
  menuItemId : String
  quantity : Nat
deriving DecidableEq, Repr

/-- The `cartData` JSON column: its `items` array. -/
abbrev CartData := List CartItem

/-- Row of `table_sessions`. -/
structure TableSession where
  tableId : String
  sessionKey : String
  participants : Nat
  cartData : CartData
  createdAt : Nat
  expiresAt : Nat
deriving DecidableEq, Repr

/-- Row of `tables`. -/
structure Table where
  id : String
  restaurantId : String
  qrCode : String
  status : String
deriving DecidableEq, Repr

/-- Row of `menu_items`. -/
structure MenuItem where
  id : String
  restaurantId : String
  name : String
  price : Int
  available : Bool
deriving DecidableEq, Repr

/-- One line of an order's `items` JSON, as built by POST /api/orders. -/
structure OrderItem where
  id : String
  name : String
  price : Int
  quantity : Nat
  total : Int
deriving DecidableEq, Repr

/-- Row of `orders`. -/
structure Order where
  id : String
  tableId : String
  restaurantId : String
  sessionId : Option String
  items : List OrderItem
  totalAmount : Int
  status : String
  specialInstructions : Option String
  createdAt : Nat
  updatedAt : Nat
deriving DecidableEq, Repr

/-- Row of `restaurants` (only the fields the modelled code reads). -/
structure Restaurant where
  id : String
  name : String
  ownerId : Option String
deriving DecidableEq, Repr

/-- The relational store (`DatabaseStorage`) as a value. -/
structure Store where
  restaurants : List Restaurant
  tables : List Table
  menuItems : List MenuItem
  sessions : List TableSession
  orders : List Order
deriving DecidableEq, Repr

/-! ## Storage operations (`server/storage.ts`) -/

/-- Storage `getTable`: SELECT FROM tables WHERE id = id LIMIT 1. -/
def getTable (st : Store) (id : String) : Option Table :=
  st.tables.find? (fun t => t.id == id)

/-- Storage `getTableByQrCode`: SELECT FROM tables WHERE qrCode = qrCode. -/
def getTableByQrCode (st : Store) (qrCode : String) : Option Table :=
  st.tables.find? (fun t => t.qrCode == qrCode)

/-- Storage `getRestaurant`: SELECT FROM restaurants WHERE id = id. -/
def getRestaurant (st : Store) (id : String) : Option Restaurant :=
  st.restaurants.find? (fun r => r.id == id)

/-- Storage `getMenuItemsByIds`: SELECT FROM menu_items WHERE id IN ids AND available = true
(the empty-ids early return coincides with the filter). -/
def getMenuItemsByIds (st : Store) (ids : List String) : List MenuItem :=
  st.menuItems.filter (fun m => ids.contains m.id && m.available)

/-- Storage `getTableSession`: SELECT FROM table_sessions WHERE sessionKey = key AND expiresAt > now. -/
def getTableSession (st : Store) (now : Nat) (key : String) : Option TableSession :=
  st.sessions.find? (fun s => s.sessionKey == key && decide (now < s.expiresAt))

/-- Storage `getActiveSessionByTableId`: SELECT ... WHERE tableId = tableId AND expiresAt > now
ORDER BY createdAt DESC LIMIT 1 (the fold picks a maximal `createdAt` among the matches). -/
def getActiveSessionByTableId (st : Store) (now : Nat) (tableId : String) : Option TableSession :=
  (st.sessions.filter (fun s => s.tableId == tableId && decide (now < s.expiresAt))).foldl
    (fun best s =>
      match best with
      | none => some s
      | some b => if b.createdAt < s.createdAt then some s else some b) none

/-- Storage `updateTableSessionCart`: UPDATE table_sessions SET cartData, participants
WHERE sessionKey = key RETURNING; `parts = none` models an `undefined` participants
argument, whose column drizzle leaves untouched. -/
def updateTableSessionCart (st : Store) (key : String) (cart : CartData)
    (parts : Option Nat) : Option TableSession × Store :=
  let sessions := st.sessions.map (fun s =>
    if s.sessionKey == key then
      { s with cartData := cart, participants := parts.getD s.participants }
    else s)
  (sessions.find? (fun s => s.sessionKey == key), { st with sessions := sessions })

/-- Storage `createTableSession`: INSERT INTO table_sessions RETURNING. -/
def createTableSession (st : Store) (s : TableSession) : Store :=
  { st with sessions := st.sessions ++ [s] }

/-- Storage `updateTableStatus`: UPDATE tables SET status WHERE id. -/
def updateTableStatus (st : Store) (id : String) (status : String) : Store :=
  { st with tables := st.tables.map (fun t =>
      if t.id == id then { t with status := status } else t) }

/-- Storage `getOrder`: SELECT FROM orders WHERE id = id. -/
def getOrder (st : Store) (id : String) : Option Order :=
  st.orders.find? (fun o => o.id == id)

/-- Storage `createOrder`: INSERT INTO orders (createdAt/updatedAt are set by the caller model). -/
def createOrder (st : Store) (o : Order) : Store :=
  { st with orders := st.orders ++ [o] }

/-- Storage `updateOrderStatus`: UPDATE orders SET status, updatedAt = now WHERE id RETURNING. -/
def updateOrderStatus (st : Store) (now : Nat) (id : String) (status : String) :
    Option Order × Store :=
  let orders := st.orders.map (fun o =>
    if o.id == id then { o with status := status, updatedAt := now } else o)
  (orders.find? (fun o => o.id == id), { st with orders := orders })

/-! ## Outbound messages, channel registry, broadcast (demo-routes.ts WebSocket layer) -/

/-- Outbound server messages of the WebSocket protocol. -/
inductive SrvMsg where
  | subscriptionConfirmed (key : String)
  | subscriptionRejected (message : String)
  | errorMsg (message : String)
  | cartUpdateMsg (cartItems : CartData) (participants : Option Nat) (sessionKey : String)
  | newOrderMsg (order : Order)
  | orderUpdateMsg (order : Order)
  | orderStatusUpdateMsg (status : String) (orderId : String)
deriving DecidableEq, Repr

/-- A WebSocket connection, identified by a numeric id. -/
abbrev Conn := Nat

/-- The in-memory `clients : Map<string, Set<WebSocket>>` channel registry. -/
abbrev Registry := List (String × List Conn)

/-- Read of `clients.get(key)` with a missing entry read as the empty set. -/
def membersOf (reg : Registry) (key : String) : List Conn :=
  match reg.find? (fun e => e.1 == key) with
  | some e => e.2
  | none => []

/-- Registration `clients.get(key).add(ws)`, creating the entry when absent; Set semantics, so
adding an already-present member changes nothing. -/
def regAdd (reg : Registry) (key : String) (c : Conn) : Registry :=
  if reg.any (fun e => e.1 == key) then
    reg.map (fun e =>
      if e.1 == key then (e.1, if e.2.contains c then e.2 else e.2 ++ [c]) else e)
  else
    reg ++ [(key, [c])]

/-- The `ws.on('close')` handler: delete the socket from every channel set and drop
channels whose set became empty. -/
def regRemoveConn (reg : Registry) (c : Conn) : Registry :=
  (reg.map (fun e => (e.1, e.2.filter (fun x => x != c)))).filter
    (fun e => !e.2.isEmpty)

/-- The `broadcast` closure: send to every member of the channel whose
`readyState` is OPEN; members that are not OPEN are skipped. The `clients` map is
never mutated by this function, so it is returned unchanged next to the list of
performed deliveries. -/
def broadcast (reg : Registry) (ready : Conn → Bool) (key : String) (msg : SrvMsg) :
    Registry × List (Conn × SrvMsg) :=
  (reg, ((membersOf reg key).filter ready).map (fun c => (c, msg)))

/-! ## Authorization helpers (ownership-validated revision) -/

/-- Helper `validateAuthToken`: the placeholder implementation returns null both for short
tokens and for everything else ("we'll return null to force proper implementation"). -/
def validateAuthToken (authToken : String) : Option String :=
  if authToken.length < 10 then none else none

/-- Helper `validateRestaurantOwnership`: token must resolve to a user id that owns the
named restaurant. -/
def validateRestaurantOwnership (st : Store) (restaurantId : String)
    (authToken : String) : Bool :=
  match validateAuthToken authToken with
  | none => false
  | some userId =>
    match getRestaurant st restaurantId with
    | none => false
    | some r => r.ownerId == some userId

/-! ## WebSocket message handlers -/

/-- JavaScript truthiness of an optional string field of a parsed message
(`undefined` and the empty string are falsy). -/
def truthyStr : Option String → Bool
  | none => false
  | some s => s != ""

/-- The rejection text sent by the subscribe handler. -/
def subscriptionRejectedText : String := "Unauthorized or invalid subscription request"

/-- Effect of handling one inbound WebSocket message: the registry and store after
the handler ran, the messages it sent (to the identified connections), and whether
it called `ws.close()` on the handling connection. -/
structure WsEffect where
  registry : Registry
  store : Store
  sent : List (Conn × SrvMsg)
  closedConn : Bool
deriving DecidableEq, Repr

/-- The `subscribe` branch of the WebSocket message handler: a truthy session key is
authorized against the Session Store (session found and not expired); otherwise a
truthy restaurantId/authToken pair is authorized via `validateRestaurantOwnership`.
An authorized connection is registered under the subscription key and confirmed;
anything else receives `subscription_rejected` and the socket is closed. -/
def handleSubscribe (st : Store) (reg : Registry) (now : Nat) (conn : Conn)
    (sessionKey restaurantId authToken : Option String) : WsEffect :=
  let rejected : WsEffect :=
    { registry := reg, store := st,
      sent := [(conn, .subscriptionRejected subscriptionRejectedText)],
      closedConn := true }
  if truthyStr sessionKey then
    let key := sessionKey.getD ""
    match getTableSession st now key with
    | some session =>
      if now < session.expiresAt then
        { registry := regAdd reg key conn, store := st,
          sent := [(conn, .subscriptionConfirmed key)], closedConn := false }
      else rejected
    | none => rejected
  else if truthyStr restaurantId && truthyStr authToken then
    if validateRestaurantOwnership st (restaurantId.getD "") (authToken.getD "") then
      let key := restaurantId.getD ""
      { registry := regAdd reg key conn, store := st,
        sent := [(conn, .subscriptionConfirmed key)], closedConn := false }
    else rejected
  else rejected

/-- The `cart_update` branch: the session is re-validated (`!session ||
session.expiresAt <= new Date()` replies with an error and returns); on an active
session the Session Store update runs, and only its resolution triggers the channel
broadcast — its rejection sends an error to the sender instead. `persistOk` models
whether the store call's promise resolves. -/
def handleCartUpdate (st : Store) (reg : Registry) (ready : Conn → Bool) (now : Nat)
    (conn : Conn) (sessionKey : String) (cartItems : CartData)
    (participants : Option Nat) (persistOk : Bool) : WsEffect :=
  match getTableSession st now sessionKey with
  | none =>
    { registry := reg, store := st,
      sent := [(conn, .errorMsg "Invalid or expired session")], closedConn := false }
  | some session =>
    if session.expiresAt ≤ now then
      { registry := reg, store := st,
        sent := [(conn, .errorMsg "Invalid or expired session")], closedConn := false }
    else if persistOk then
      let upd := updateTableSessionCart st sessionKey cartItems participants
      let b := broadcast reg ready sessionKey
        (.cartUpdateMsg cartItems participants sessionKey)
      { registry := b.1, store := upd.2, sent := b.2, closedConn := false }
    else
      { registry := reg, store := st,
        sent := [(conn, .errorMsg "Failed to update cart")], closedConn := false }

/-! ## Secure order schema (shared schema, `secureOrderSchema`) -/

/-- Hexadecimal digit test used by the uuid shape check. -/
def isHexDigit (c : Char) : Bool :=
  ('0' ≤ c && c ≤ '9') || ('a' ≤ c && c ≤ 'f') || ('A' ≤ c && c ≤ 'F')

/-- Split a character list at every hyphen. -/
def splitDashes : List Char → List (List Char)
  | [] => [[]]
  | c :: rest =>
    let r := splitDashes rest
    if c == '-' then [] :: r
    else
      match r with
      | g :: gs => (c :: g) :: gs
      | [] => [[c]]

/-- Shape accepted by `z.string().uuid()`: five hyphen-separated hex groups of
lengths 8-4-4-4-12. -/
def isUuid (s : String) : Bool :=
  match splitDashes s.toList with
  | [a, b, c, d, e] =>
    a.length == 8 && b.length == 4 && c.length == 4 && d.length == 4 &&
      e.length == 12 && (a ++ b ++ c ++ d ++ e).all isHexDigit
  | _ => false

/-- One line of an inbound order body as a client may send it, including a price
field that is not part of `secureOrderSchema`. -/
structure RawOrderItem where
  menuItemId : String
  quantity : Int
  price : Option Int
deriving DecidableEq, Repr

/-- An inbound POST /api/orders body as a client may send it, including a
totalAmount field that is not part of `secureOrderSchema`. -/
structure RawOrder where
  tableId : String
  restaurantId : String
  sessionId : Option String
  items : List RawOrderItem
  specialInstructions : Option String
  totalAmount : Option Int
deriving DecidableEq, Repr

/-- One line of a parsed secure order: item id and quantity only. -/
structure SecureOrderItem where
  menuItemId : String
  quantity : Nat
deriving DecidableEq, Repr

/-- A parsed secure order (`z.infer<typeof secureOrderSchema>`). -/
structure SecureOrder where
  tableId : String
  restaurantId : String
  sessionId : Option String
  items : List SecureOrderItem
  specialInstructions : Option String
deriving DecidableEq, Repr

/-- Schema `secureOrderSchema.parse`: ids must be uuids, quantities positive integers;
the price and totalAmount fields of the body are not in the schema, so the parsed
object never contains them. -/
def parseSecureOrder (r : RawOrder) : Option SecureOrder :=
  if isUuid r.tableId && isUuid r.restaurantId &&
      (match r.sessionId with | none => true | some s => isUuid s) &&
      r.items.all (fun i => isUuid i.menuItemId && decide (1 ≤ i.quantity)) then
    some { tableId := r.tableId, restaurantId := r.restaurantId,
           sessionId := r.sessionId,
           items := r.items.map (fun i =>
             { menuItemId := i.menuItemId, quantity := i.quantity.toNat }),
           specialInstructions := r.specialInstructions }
  else none

/-- Erase every client-supplied price field from an inbound order body. -/
def stripClientPrices (r : RawOrder) : RawOrder :=
  { r with items := r.items.map (fun i => { i with price := none }),
           totalAmount := none }

/-! ## HTTP order handlers (ownership-validated revision) -/

/-- HTTP error responses of the modelled handlers. -/
inductive HttpErr where
  | notFound (message : String)
  | forbidden (message : String)
  | badRequest (message : String)
  | serverError (message : String)
deriving DecidableEq, Repr

/-- Successful result of an order handler: the responded order, the store after the
handler, and the `broadcast(key, payload)` calls it performed. -/
structure HttpOk where
  order : Order
  store : Store
  publishes : List (String × SrvMsg)
deriving DecidableEq, Repr

/-- Session validation block of POST /api/orders: run only when a session id is
supplied (JS truthiness); the store lookup already filters expired sessions, so the
explicit `expiresAt <= new Date()` re-check is kept but unreachable. -/
def checkOrderSession (st : Store) (now : Nat) (sec : SecureOrder) : Option HttpErr :=
  match sec.sessionId with
  | none => none
  | some sid =>
    if sid == "" then none
    else
      match getTableSession st now sid with
      | none => some (.notFound "Session not found")
      | some session =>
        if session.tableId != sec.tableId then
          some (.forbidden "Session does not belong to the specified table")
        else if session.expiresAt ≤ now then
          some (.forbidden "Session has expired")
        else none

/-- Order-item construction of POST /api/orders: each requested line is looked up in
the fetched authoritative menu rows; a missing row makes the handler's non-null
assertion throw, modelled as `none`. -/
def buildOrderItems (menu : List MenuItem) : List SecureOrderItem → Option (List OrderItem)
  | [] => some []
  | oi :: rest =>
    match menu.find? (fun m => m.id == oi.menuItemId) with
    | none => none
    | some mi =>
      match buildOrderItems menu rest with
      | none => none
      | some tail =>
        some ({ id := oi.menuItemId, name := mi.name, price := mi.price,
                quantity := oi.quantity,
                total := mi.price * (oi.quantity : Int) } :: tail)

/-- Whether `req.broadcast` is defined inside the order route handlers. It never
is: the `app.use` middleware that sets `(req as any).broadcast` is registered
after the routes, Express dispatches layers in registration order, and the route
handlers end the response without calling `next()`, so the injecting middleware
never runs for these requests and every `broadcast?.(...)` call in them is a
no-op. -/
def reqBroadcastDefined : Bool := false

/-- POST /api/orders: validates the table, the restaurant linkage and the optional
session, fetches the authoritative menu rows, rejects unknown/unavailable or
foreign items, prices the order entirely server-side and persists it; the
`new_order` publish to the restaurant channel runs only if `req.broadcast` is
defined, which it never is (see `reqBroadcastDefined`). -/
def postOrder (st : Store) (now : Nat) (newId : String) (sec : SecureOrder) :
    Except HttpErr HttpOk :=
  match getTable st sec.tableId with
  | none => .error (.notFound "Table not found")
  | some table =>
    if table.restaurantId != sec.restaurantId then
      .error (.forbidden "Table does not belong to the specified restaurant")
    else
      match checkOrderSession st now sec with
      | some e => .error e
      | none =>
        let ids := sec.items.map (fun i => i.menuItemId)
        let menu := getMenuItemsByIds st ids
        if menu.length != ids.length then
          .error (.badRequest "Invalid or unavailable menu items")
        else if menu.any (fun m => m.restaurantId != sec.restaurantId) then
          .error (.badRequest "Menu items do not belong to the specified restaurant")
        else
          match buildOrderItems menu sec.items with
          | none => .error (.serverError "Failed to create order")
          | some items =>
            let total := (items.map (fun i => i.total)).sum
            let order : Order :=
              { id := newId, tableId := sec.tableId,
                restaurantId := sec.restaurantId,
                sessionId := if truthyStr sec.sessionId then sec.sessionId else none,
                items := items, totalAmount := total, status := "received",
                specialInstructions := sec.specialInstructions,
                createdAt := now, updatedAt := now }
            let pubs :=
              if reqBroadcastDefined && sec.restaurantId != "" then
                [(sec.restaurantId, SrvMsg.newOrderMsg order)]
              else []
            .ok { order := order, store := createOrder st order, publishes := pubs }

/-- PUT /api/orders/:id/status: updates status and updatedAt in the store; the
handler's `order_update` (restaurant channel) and `order_status_update` (session
channel) calls are guarded by JS truthiness of the respective key and run only if
`req.broadcast` is defined, which it never is (see `reqBroadcastDefined`), so no
event is ever published. -/
def putOrderStatus (st : Store) (now : Nat) (id : String) (status : String) :
    Except HttpErr HttpOk :=
  match updateOrderStatus st now id status with
  | (none, _) => .error (.notFound "Order not found")
  | (some order, st1) =>
    let pubs1 :=
      if reqBroadcastDefined && order.restaurantId != "" then
        [(order.restaurantId, SrvMsg.orderUpdateMsg order)]
      else []
    let pubs2 :=
      match order.sessionId with
      | some sid =>
        if reqBroadcastDefined && sid != "" then
          [(sid, SrvMsg.orderStatusUpdateMsg order.status order.id)]
        else []
      | none => []
    .ok { order := order, store := st1, publishes := pubs1 ++ pubs2 }

/-! ## Table-join handlers -/

/-- Decidable equality of handler results. -/
instance exceptDecEq {e a : Type} [DecidableEq e] [DecidableEq a] :
    DecidableEq (Except e a) := fun x y =>
  match x, y with
  | Except.error u, Except.error v =>
    if h : u = v then isTrue (by rw [h]) else
      isFalse (fun he => h (Except.error.inj he))
  | Except.ok u, Except.ok v =>
    if h : u = v then isTrue (by rw [h]) else
      isFalse (fun he => h (Except.ok.inj he))
  | Except.error _, Except.ok _ => isFalse (fun he => Except.noConfusion he)
  | Except.ok _, Except.error _ => isFalse (fun he => Except.noConfusion he)

/-- Successful result of a join handler. -/
structure JoinOk where
  table : Table
  session : Option TableSession
  store : Store
deriving DecidableEq, Repr

/-- POST /api/tables/:qrCode/join of the demo revision: find the active session of
the table and bump its participant count (`(session.participants || 1) + 1`), or
create a fresh session (participants 1, four-hour expiry) when none is active.
`freshKey` stands for the random session key used on creation. -/
def joinTableDemo (st : Store) (now : Nat) (qrCode : String) (freshKey : String) :
    Except HttpErr JoinOk :=
  match getTableByQrCode st qrCode with
  | none => .error (.notFound "Table not found")
  | some table =>
    match getActiveSessionByTableId st now table.id with
    | none =>
      let s : TableSession :=
        { tableId := table.id, sessionKey := freshKey, participants := 1,
          cartData := [], createdAt := now,
          expiresAt := now + 4 * 60 * 60 * 1000 }
      .ok { table := table, session := some s, store := createTableSession st s }
    | some session =>
      let upd := updateTableSessionCart st session.sessionKey session.cartData
        (some ((if session.participants == 0 then 1 else session.participants) + 1))
      .ok { table := table, session := upd.1, store := upd.2 }

/-- POST /api/tables/:qrCode/join of the authenticated revisions: always creates a
fresh session with participants 1 and a four-hour expiry, then marks the table
active; no lookup of an existing active session is performed. -/
def joinTableRoutes (st : Store) (now : Nat) (qrCode : String) (freshKey : String) :
    Except HttpErr JoinOk :=
  match getTableByQrCode st qrCode with
  | none => .error (.notFound "Table not found")
  | some table =>
    let s : TableSession :=
      { tableId := table.id, sessionKey := freshKey, participants := 1,
        cartData := [], createdAt := now,
        expiresAt := now + 4 * 60 * 60 * 1000 }
    let st1 := createTableSession st s
    .ok { table := table, session := some s,
          store := updateTableStatus st1 table.id "active" }

/-- Price of the available menu item with a given id, as the store serves it. -/
def menuPrice (st : Store) (id : String) : Int :=
  match st.menuItems.find? (fun m => m.id == id && m.available) with
  | some m => m.price
  | none => 0

/-! ## Helper lemmas -/

/-- A `find?` call returns the element when it is the unique satisfier in the list. -/
theorem find?_eq_some_of_unique {α : Type} (p : α → Bool) (a : α) :
    ∀ l : List α, a ∈ l → p a = true → (∀ b ∈ l, p b = true → b = a) →
      l.find? p = some a := by
  intro l
  induction l with
  | nil => intro h; cases h
  | cons x xs ih =>
    intro hmem hpa huniq
    by_cases hx : p x = true
    · have hxa : x = a := huniq x (List.mem_cons_self x xs) hx
      subst hxa
      exact List.find?_cons_of_pos xs hx
    · have hxa : x ≠ a := fun he => hx (he ▸ hpa)
      have hmem' : a ∈ xs := by
        rcases List.mem_cons.mp hmem with h | h
        · exact absurd h.symm hxa
        · exact h
      rw [List.find?_cons_of_neg xs (by simpa using hx)]
      exact ih hmem' hpa (fun b hb => huniq b (List.mem_cons_of_mem x hb))

/-- A `find?` over a mapped list, when the predicate is invariant under the map. -/
theorem find?_map_congr {α : Type} (p : α → Bool) (f : α → α)
    (hf : ∀ a, p (f a) = p a) :
    ∀ (l : List α) (a : α), l.find? p = some a → (l.map f).find? p = some (f a) := by
  intro l
  induction l with
  | nil => intro a h; simp [List.find?] at h
  | cons x xs ih =>
    intro a h
    by_cases hx : p x = true
    · rw [List.find?_cons_of_pos xs hx] at h
      cases h
      simp only [List.map_cons]
      exact List.find?_cons_of_pos _ (by rw [hf]; exact hx)
    · rw [List.find?_cons_of_neg xs (by simpa using hx)] at h
      simp only [List.map_cons]
      rw [List.find?_cons_of_neg _ (by simp [hf, hx])]
      exact ih a h

/-- A `find?` call skips a prefix containing no satisfier. -/
theorem find?_append_of_none {α : Type} (p : α → Bool) :
    ∀ l₁ l₂ : List α, l₁.find? p = none → (l₁ ++ l₂).find? p = l₂.find? p := by
  intro l₁
  induction l₁ with
  | nil => intro l₂ _; rfl
  | cons x xs ih =>
    intro l₂ h
    by_cases hx : p x = true
    · rw [List.find?_cons_of_pos xs hx] at h; cases h
    · rw [List.find?_cons_of_neg xs (by simpa using hx)] at h
      rw [List.cons_append, List.find?_cons_of_neg _ (by simpa using hx)]
      exact ih l₂ h

/-- A fold that at every step keeps the accumulator or adopts the current element
can only produce the initial value or a member of the list. -/
theorem foldl_choice_mem {α : Type} (f : Option α → α → Option α)
    (hf : ∀ acc a, f acc a = acc ∨ f acc a = some a) :
    ∀ (l : List α) (init : Option α) (s : α),
      l.foldl f init = some s → init = some s ∨ s ∈ l := by
  intro l
  induction l with
  | nil => intro init s h; exact Or.inl h
  | cons x xs ih =>
    intro init s h
    rcases ih (f init x) s h with h' | h'
    · rcases hf init x with he | he
      · exact Or.inl (he ▸ h')
      · rw [he] at h'
        cases h'
        exact Or.inr (List.mem_cons_self x xs)
    · exact Or.inr (List.mem_cons_of_mem x h')

/-- The session returned by `getActiveSessionByTableId` is a stored session of the
table, active at the query time. -/
theorem getActiveSessionByTableId_spec (st : Store) (now : Nat) (tableId : String)
    (s : TableSession) (h : getActiveSessionByTableId st now tableId = some s) :
    s ∈ st.sessions ∧ s.tableId = tableId ∧ now < s.expiresAt := by
  unfold getActiveSessionByTableId at h
  have hmem : (none : Option TableSession) = some s ∨
      s ∈ st.sessions.filter
        (fun s => s.tableId == tableId && decide (now < s.expiresAt)) := by
    refine foldl_choice_mem _ ?_ _ _ _ h
    intro acc a
    match acc with
    | none => exact Or.inr rfl
    | some b =>
      by_cases hc : b.createdAt < a.createdAt
      · simp [hc]
      · simp [hc]
  rcases hmem with h' | h'
  · cases h'
  · have hmem2 := List.mem_filter.mp h'
    refine ⟨hmem2.1, ?_, ?_⟩
    · have := hmem2.2
      simp only [Bool.and_eq_true, beq_iff_eq, decide_eq_true_eq] at this
      exact this.1
    · have := hmem2.2
      simp only [Bool.and_eq_true, beq_iff_eq, decide_eq_true_eq] at this
      exact this.2

/-- Registering a connection makes it a member of the channel. -/
theorem mem_membersOf_regAdd (reg : Registry) (key : String) (c : Conn) :
    c ∈ membersOf (regAdd reg key c) key := by
  unfold regAdd membersOf
  by_cases hany : reg.any (fun e => e.1 == key) = true
  · simp only [hany, if_true]
    have hsome : ∃ a, reg.find? (fun e => e.1 == key) = some a := by
      cases hfind : reg.find? (fun e => e.1 == key) with
      | some a => exact ⟨a, rfl⟩
      | none =>
        rw [List.find?_eq_none] at hfind
        obtain ⟨e, hmem, he⟩ := List.any_eq_true.mp hany
        exact absurd he (by simpa using hfind e hmem)
    obtain ⟨a, hfind⟩ := hsome
    have hmap := find?_map_congr (fun e => e.1 == key)
      (fun e =>
        if e.1 == key then (e.1, if e.2.contains c then e.2 else e.2 ++ [c]) else e)
      (fun e => by by_cases h : (e.1 == key) = true <;> simp [h]) reg a hfind
    rw [hmap]
    have ha : a.1 = key := by simpa using List.find?_some hfind
    simp only [ha, beq_self_eq_true, if_true]
    by_cases hc : a.2.contains c = true
    · simp only [hc, if_true]
      exact List.elem_iff.mp hc
    · simp only [hc, Bool.false_eq_true, if_false]
      by_cases hm : c ∈ a.2
      · simp [hm]
      · simp [hm]
  · have hany' : reg.any (fun e => e.1 == key) = false :=
      Bool.eq_false_iff.mpr hany
    simp only [hany', Bool.false_eq_true, if_false]
    have hnone : reg.find? (fun e => e.1 == key) = none := by
      rw [List.find?_eq_none]
      intro e hmem
      have := List.any_eq_false.mp hany' e hmem
      simpa using this
    rw [find?_append_of_none _ _ _ hnone]
    simp [List.find?]

/-- An active stored session with the key makes `getTableSession` succeed. -/
theorem getTableSession_isSome (st : Store) (now : Nat) (key : String)
    (hs : ∃ s ∈ st.sessions, s.sessionKey = key ∧ now < s.expiresAt) :
    ∃ session, getTableSession st now key = some session ∧
      now < session.expiresAt := by
  cases hfind : getTableSession st now key with
  | some session =>
    refine ⟨session, rfl, ?_⟩
    have h := hfind
    unfold getTableSession at h
    have hpred := List.find?_some h
    simp only [Bool.and_eq_true, beq_iff_eq, decide_eq_true_eq] at hpred
    exact hpred.2
  | none =>
    exfalso
    have h := hfind
    unfold getTableSession at h
    rw [List.find?_eq_none] at h
    obtain ⟨s, hmem, hkey, hexp⟩ := hs
    exact absurd (by simp [hkey, hexp]) (h s hmem)

/-- When every stored session with the key is expired, `getTableSession` fails. -/
theorem getTableSession_eq_none (st : Store) (now : Nat) (key : String)
    (hs : ∀ s ∈ st.sessions, s.sessionKey = key → s.expiresAt ≤ now) :
    getTableSession st now key = none := by
  unfold getTableSession
  rw [List.find?_eq_none]
  intro s hmem
  by_cases hkey : s.sessionKey = key
  · have := hs s hmem hkey
    simp [hkey, Nat.not_lt.mpr this]
  · simp [hkey]

/-! ## Witness fixtures -/

/-- A concrete active table session used by witnesses. -/
def exSession : TableSession :=
  { tableId := "t1", sessionKey := "key1", participants := 1, cartData := [],
    createdAt := 0, expiresAt := 1000 }

/-- A concrete table used by witnesses. -/
def exTable : Table :=
  { id := "t1", restaurantId := "r1", qrCode := "qr1", status := "available" }

/-- A concrete order used by witnesses. -/
def exOrder : Order :=
  { id := "o1", tableId := "t1", restaurantId := "r1", sessionId := some "key1",
    items := [], totalAmount := 0, status := "received",
    specialInstructions := none, createdAt := 0, updatedAt := 0 }

/-- A concrete store used by witnesses. -/
def exStore : Store :=
  { restaurants := [{ id := "r1", name := "Demo", ownerId := some "u1" }],
    tables := [exTable],
    menuItems := [],
    sessions := [exSession],
    orders := [exOrder] }

/-! ## Claims -/

/-- C2: a subscribe request carrying a session key whose session exists in the
Session Store with `expiresAt` strictly greater than the current time is
authorized: the connection is added to the registry set for the session's channel
key and receives a `subscription_confirmed` message naming that key. -/
theorem subscribe_active_session_confirmed (st : Store) (reg : Registry) (now : Nat)
    (conn : Conn) (key : String) (restaurantId authToken : Option String)
    (hk : key ≠ "")
    (hs : ∃ s ∈ st.sessions, s.sessionKey = key ∧ now < s.expiresAt) :
    handleSubscribe st reg now conn (some key) restaurantId authToken =
      { registry := regAdd reg key conn, store := st,
        sent := [(conn, SrvMsg.subscriptionConfirmed key)], closedConn := false } ∧
    conn ∈ membersOf
      (handleSubscribe st reg now conn (some key) restaurantId authToken).registry
      key := by
  obtain ⟨session, hfind, hexp⟩ := getTableSession_isSome st now key hs
  have h1 : handleSubscribe st reg now conn (some key) restaurantId authToken =
      { registry := regAdd reg key conn, store := st,
        sent := [(conn, SrvMsg.subscriptionConfirmed key)], closedConn := false } := by
    unfold handleSubscribe
    have htruthy : truthyStr (some key) = true := by
      simp [truthyStr, hk]
    simp only [htruthy, if_true, Option.getD_some]
    rw [hfind]
    simp [hexp]
  exact ⟨h1, by rw [h1]; exact mem_membersOf_regAdd reg key conn⟩

/-- Witness for C2 at a concrete store, registry, time and connection. -/
theorem subscribe_active_session_confirmed_witness :
    handleSubscribe exStore [] 10 7 (some "key1") none none =
      { registry := regAdd [] "key1" 7, store := exStore,
        sent := [(7, SrvMsg.subscriptionConfirmed "key1")], closedConn := false } ∧
    7 ∈ membersOf
      (handleSubscribe exStore [] 10 7 (some "key1") none none).registry "key1" :=
  subscribe_active_session_confirmed exStore [] 10 7 "key1" none none
    (by decide) ⟨exSession, by decide, rfl, by decide⟩

/-- C3: a subscribe request carrying a session key for which no stored session is
unexpired is rejected: the connection receives `subscription_rejected`, the socket
is closed, and the registry — hence every channel's member set — is unchanged. -/
theorem subscribe_invalid_session_rejected (st : Store) (reg : Registry) (now : Nat)
    (conn : Conn) (key : String) (restaurantId authToken : Option String)
    (hk : key ≠ "")
    (hs : ∀ s ∈ st.sessions, s.sessionKey = key → s.expiresAt ≤ now) :
    handleSubscribe st reg now conn (some key) restaurantId authToken =
      { registry := reg, store := st,
        sent := [(conn, SrvMsg.subscriptionRejected subscriptionRejectedText)],
        closedConn := true } ∧
    ∀ k, conn ∉ membersOf reg k →
      conn ∉ membersOf
        (handleSubscribe st reg now conn (some key) restaurantId authToken).registry
        k := by
  have hnone := getTableSession_eq_none st now key hs
  have h1 : handleSubscribe st reg now conn (some key) restaurantId authToken =
      { registry := reg, store := st,
        sent := [(conn, SrvMsg.subscriptionRejected subscriptionRejectedText)],
        closedConn := true } := by
    unfold handleSubscribe
    have htruthy : truthyStr (some key) = true := by
      simp [truthyStr, hk]
    simp only [htruthy, if_true, Option.getD_some]
    rw [hnone]
  exact ⟨h1, fun k hk' => by rw [h1]; exact hk'⟩

/-- Witness for C3: unknown session key on the concrete store. -/
theorem subscribe_invalid_session_rejected_witness :
    handleSubscribe exStore [] 10 7 (some "nope") none none =
      { registry := [], store := exStore,
        sent := [(7, SrvMsg.subscriptionRejected subscriptionRejectedText)],
        closedConn := true } ∧
    ∀ k, 7 ∉ membersOf [] k →
      7 ∉ membersOf
        (handleSubscribe exStore [] 10 7 (some "nope") none none).registry k :=
  subscribe_invalid_session_rejected exStore [] 10 7 "nope" none none
    (by decide) (by decide)

/-- C4: a restaurant-staff subscribe request (restaurant id and auth token, no
session key) whose credential does not identify the owner of the named restaurant
is rejected and the connection is not registered under the restaurant's channel. -/
theorem staff_subscribe_nonowner_rejected (st : Store) (reg : Registry) (now : Nat)
    (conn : Conn) (rid tok : String)
    (hrid : rid ≠ "") (htok : tok ≠ "")
    (hown : ∀ uid, validateAuthToken tok = some uid →
      ∀ r, getRestaurant st rid = some r → r.ownerId ≠ some uid) :
    handleSubscribe st reg now conn none (some rid) (some tok) =
      { registry := reg, store := st,
        sent := [(conn, SrvMsg.subscriptionRejected subscriptionRejectedText)],
        closedConn := true } ∧
    (conn ∉ membersOf reg rid →
      conn ∉ membersOf
        (handleSubscribe st reg now conn none (some rid) (some tok)).registry
        rid) := by
  have hval : validateAuthToken tok = none := by
    unfold validateAuthToken
    exact ite_self none
  have hfalse : validateRestaurantOwnership st rid tok = false := by
    unfold validateRestaurantOwnership
    rw [hval]
  have h1 : handleSubscribe st reg now conn none (some rid) (some tok) =
      { registry := reg, store := st,
        sent := [(conn, SrvMsg.subscriptionRejected subscriptionRejectedText)],
        closedConn := true } := by
    unfold handleSubscribe
    simp [truthyStr, hrid, htok, hfalse]
  exact ⟨h1, fun hmem => by rw [h1]; exact hmem⟩

/-- Witness for C4 on the concrete store. -/
theorem staff_subscribe_nonowner_rejected_witness :
    handleSubscribe exStore [] 10 7 none (some "r1") (some "sometoken99") =
      { registry := [], store := exStore,
        sent := [(7, SrvMsg.subscriptionRejected subscriptionRejectedText)],
        closedConn := true } ∧
    (7 ∉ membersOf [] "r1" →
      7 ∉ membersOf
        (handleSubscribe exStore [] 10 7 none (some "r1")
          (some "sometoken99")).registry "r1") :=
  staff_subscribe_nonowner_rejected exStore [] 10 7 "r1" "sometoken99"
    (by decide) (by decide) (by intro uid h; simp [validateAuthToken] at h)

/-- C10: in the ownership-validated revision every restaurant-staff subscribe
request fails regardless of the auth token: `validateAuthToken` returns null, so
the request receives `subscription_rejected` followed by connection close and the
registry is unchanged — no staff connection can ever join a restaurant channel. -/
theorem staff_subscribe_always_rejected (st : Store) (reg : Registry) (now : Nat)
    (conn : Conn) (rid tok : String)
    (hrid : rid ≠ "") (htok : tok ≠ "") :
    validateAuthToken tok = none ∧
    handleSubscribe st reg now conn none (some rid) (some tok) =
      { registry := reg, store := st,
        sent := [(conn, SrvMsg.subscriptionRejected subscriptionRejectedText)],
        closedConn := true } := by
  have hval : validateAuthToken tok = none := by
    unfold validateAuthToken
    exact ite_self none
  have hfalse : validateRestaurantOwnership st rid tok = false := by
    unfold validateRestaurantOwnership
    rw [hval]
  refine ⟨hval, ?_⟩
  unfold handleSubscribe
  simp [truthyStr, hrid, htok, hfalse]

/-- Witness for C10 with a long token on the concrete store. -/
theorem staff_subscribe_always_rejected_witness :
    validateAuthToken "averylongtoken1234567890" = none ∧
    handleSubscribe exStore [] 10 7 none (some "r1")
        (some "averylongtoken1234567890") =
      { registry := [], store := exStore,
        sent := [(7, SrvMsg.subscriptionRejected subscriptionRejectedText)],
        closedConn := true } :=
  staff_subscribe_always_rejected exStore [] 10 7 "r1"
    "averylongtoken1234567890" (by decide) (by decide)

/-- C6: a `cart_update` whose session key no longer resolves to an unexpired
session gets an error reply on the originating connection only; the store (cart
data and participants), the registry (channel memberships) are unchanged and the
connection is not closed. -/
theorem cart_update_stale_session_error (st : Store) (reg : Registry)
    (ready : Conn → Bool) (now : Nat) (conn : Conn) (key : String)
    (cartItems : CartData) (parts : Option Nat) (persistOk : Bool)
    (hs : ∀ s ∈ st.sessions, s.sessionKey = key → s.expiresAt ≤ now) :
    handleCartUpdate st reg ready now conn key cartItems parts persistOk =
      { registry := reg, store := st,
        sent := [(conn, SrvMsg.errorMsg "Invalid or expired session")],
        closedConn := false } := by
  have hnone := getTableSession_eq_none st now key hs
  unfold handleCartUpdate
  rw [hnone]

/-- Witness for C6: stale key on the concrete store (session expired at time
5000). -/
theorem cart_update_stale_session_error_witness :
    handleCartUpdate exStore [] (fun _ => true) 5000 7 "key1" [] none true =
      { registry := [], store := exStore,
        sent := [(7, SrvMsg.errorMsg "Invalid or expired session")],
        closedConn := false } :=
  cart_update_stale_session_error exStore [] (fun _ => true) 5000 7 "key1" []
    none true (by decide)

/-- C7: on an active session, a failing Session Store update makes the sender
receive an error and suppresses the channel broadcast (and leaves the store
unchanged); the broadcast and the store write happen exactly when the update
succeeds. -/
theorem cart_update_persist_gate (st : Store) (reg : Registry)
    (ready : Conn → Bool) (now : Nat) (conn : Conn) (key : String)
    (cartItems : CartData) (parts : Option Nat)
    (hs : ∃ s ∈ st.sessions, s.sessionKey = key ∧ now < s.expiresAt) :
    handleCartUpdate st reg ready now conn key cartItems parts false =
      { registry := reg, store := st,
        sent := [(conn, SrvMsg.errorMsg "Failed to update cart")],
        closedConn := false } ∧
    (handleCartUpdate st reg ready now conn key cartItems parts true).sent =
      (broadcast reg ready key
        (SrvMsg.cartUpdateMsg cartItems parts key)).2 ∧
    (handleCartUpdate st reg ready now conn key cartItems parts true).store =
      (updateTableSessionCart st key cartItems parts).2 := by
  obtain ⟨session, hfind, hexp⟩ := getTableSession_isSome st now key hs
  have hnotle : ¬ session.expiresAt ≤ now := Nat.not_le.mpr hexp
  refine ⟨?_, ?_, ?_⟩ <;>
    · unfold handleCartUpdate
      rw [hfind]
      simp [hnotle, broadcast]

/-- Witness for C7 on the concrete store at time 10. -/
theorem cart_update_persist_gate_witness :
    handleCartUpdate exStore [] (fun _ => true) 10 7 "key1" [] none false =
      { registry := [], store := exStore,
        sent := [(7, SrvMsg.errorMsg "Failed to update cart")],
        closedConn := false } ∧
    (handleCartUpdate exStore [] (fun _ => true) 10 7 "key1" [] none true).sent =
      (broadcast [] (fun _ => true) "key1"
        (SrvMsg.cartUpdateMsg [] none "key1")).2 ∧
    (handleCartUpdate exStore [] (fun _ => true) 10 7 "key1" [] none true).store =
      (updateTableSessionCart exStore "key1" [] none).2 :=
  cart_update_persist_gate exStore [] (fun _ => true) 10 7 "key1" [] none
    ⟨exSession, by decide, rfl, by decide⟩

/-- A readiness function under which only connection 1 is OPEN. -/
def readyOnly1 : Conn → Bool := fun c => c == 1

/-- C8 counterexample: publishing to channel `k` of a registry whose member 2 has a
dead transport delivers only to member 1 but leaves member 2 in the channel's
member set — `broadcast` does not remove unreachable members from the registry. -/
theorem broadcast_no_removal_counterexample :
    (broadcast [("k", [1, 2])] readyOnly1 "k" (SrvMsg.errorMsg "x")).2 =
      [(1, SrvMsg.errorMsg "x")] ∧
    membersOf (broadcast [("k", [1, 2])] readyOnly1 "k"
      (SrvMsg.errorMsg "x")).1 "k" = [1, 2] := by
  decide

/-- C8 (amended): publishing delivers the payload exactly to the members whose
transport is still writable, skips (but does not deregister) the others, and never
mutates the registry or surfaces a failure; removal of a dead connection happens in
the transport close handler (`regRemoveConn`), which removes it from every
channel. -/
theorem broadcast_skips_dead_members (reg : Registry) (ready : Conn → Bool)
    (key : String) (msg : SrvMsg) (c : Conn) :
    (broadcast reg ready key msg).1 = reg ∧
    (ready c = true → c ∈ membersOf reg key →
      (c, msg) ∈ (broadcast reg ready key msg).2) ∧
    (ready c = false → ∀ m, (c, m) ∉ (broadcast reg ready key msg).2) ∧
    (∀ k, c ∉ membersOf (regRemoveConn reg c) k) := by
  refine ⟨rfl, ?_, ?_, ?_⟩
  · intro hready hmem
    unfold broadcast
    exact List.mem_map.mpr ⟨c, List.mem_filter.mpr ⟨hmem, hready⟩, rfl⟩
  · intro hready m hmem
    unfold broadcast at hmem
    obtain ⟨a, hfil, heq⟩ := List.mem_map.mp hmem
    have ha : a = c := congrArg Prod.fst heq
    subst ha
    have := (List.mem_filter.mp hfil).2
    rw [hready] at this
    cases this
  · intro k hmem
    unfold regRemoveConn membersOf at hmem
    cases hfind : ((reg.map (fun e => (e.1, e.2.filter (fun x => x != c)))).filter
        (fun e => !e.2.isEmpty)).find? (fun e => e.1 == k) with
    | none => rw [hfind] at hmem; cases hmem
    | some e =>
      rw [hfind] at hmem
      have hmem2 : c ∈ e.2 := hmem
      have hememb : e ∈ (reg.map (fun e => (e.1, e.2.filter (fun x => x != c)))).filter
          (fun e => !e.2.isEmpty) := List.mem_of_find?_eq_some hfind
      have hememb2 := (List.mem_filter.mp hememb).1
      obtain ⟨orig, _, heq⟩ := List.mem_map.mp hememb2
      have he2 : e.2 = orig.2.filter (fun x => x != c) := by
        rw [← heq]
      rw [he2] at hmem2
      have := (List.mem_filter.mp hmem2).2
      simp at this

/-- Witness for C8 (amended) at a concrete registry: member 1 (OPEN) receives, the
registry is unchanged, member 2's dead transport receives nothing, and the close
handler removes it from every channel. -/
theorem broadcast_skips_dead_members_witness :
    (broadcast [("k", [1, 2])] readyOnly1 "k" (SrvMsg.errorMsg "m")).1 =
      [("k", [1, 2])] ∧
    (1, SrvMsg.errorMsg "m") ∈
      (broadcast [("k", [1, 2])] readyOnly1 "k" (SrvMsg.errorMsg "m")).2 ∧
    (2, SrvMsg.errorMsg "m") ∉
      (broadcast [("k", [1, 2])] readyOnly1 "k" (SrvMsg.errorMsg "m")).2 ∧
    2 ∉ membersOf (regRemoveConn [("k", [1, 2])] 2) "k" :=
  ⟨(broadcast_skips_dead_members [("k", [1, 2])] readyOnly1 "k"
      (SrvMsg.errorMsg "m") 1).1,
   (broadcast_skips_dead_members [("k", [1, 2])] readyOnly1 "k"
      (SrvMsg.errorMsg "m") 1).2.1 (by decide) (by decide),
   (broadcast_skips_dead_members [("k", [1, 2])] readyOnly1 "k"
      (SrvMsg.errorMsg "m") 2).2.2.1 (by decide) (SrvMsg.errorMsg "m"),
   (broadcast_skips_dead_members [("k", [1, 2])] readyOnly1 "k"
      (SrvMsg.errorMsg "m") 2).2.2.2 "k"⟩

/-- C9 counterexample: on a store whose table `t1` has an active session
(`exSession`, key `key1`), the authenticated-revision join handler still creates a
brand-new session with participants 1 — two sessions are stored afterwards. -/
theorem routes_join_ignores_active_session_counterexample :
    getActiveSessionByTableId exStore 10 "t1" = some exSession ∧
    joinTableRoutes exStore 10 "qr1" "key9" =
      Except.ok
        { table := exTable,
          session := some { tableId := "t1", sessionKey := "key9",
                            participants := 1, cartData := [], createdAt := 10,
                            expiresAt := 14400010 },
          store := { restaurants := exStore.restaurants,
                     tables := [{ id := "t1", restaurantId := "r1",
                                  qrCode := "qr1", status := "active" }],
                     menuItems := [],
                     sessions := [exSession,
                       { tableId := "t1", sessionKey := "key9", participants := 1,
                         cartData := [], createdAt := 10,
                         expiresAt := 14400010 }],
                     orders := exStore.orders } } := by
  decide

/-- C9 (amended): the demo-revision join reuses the table's active session — no new
session is created and its participants count is incremented by one — and creates a
fresh session with participants 1 only when no active session exists; the
authenticated-revision join instead always creates a fresh session with
participants 1, growing the session table even when an active session exists. -/
theorem join_session_reuse_amended (st : Store) (now : Nat) (qr fresh : String)
    (table : Table) (session : TableSession)
    (hkeys : (st.sessions.map (fun s => s.sessionKey)).Nodup)
    (htab : getTableByQrCode st qr = some table)
    (hact : getActiveSessionByTableId st now table.id = some session)
    (hp : 1 ≤ session.participants) :
    joinTableDemo st now qr fresh =
      Except.ok
        { table := table,
          session := some { session with participants := session.participants + 1 },
          store := { st with sessions := st.sessions.map (fun s =>
            if s.sessionKey == session.sessionKey then
              { s with cartData := session.cartData,
                       participants := session.participants + 1 }
            else s) } } ∧
    (joinTableDemo st now qr fresh).map (fun r => r.store.sessions.length) =
      Except.ok st.sessions.length ∧
    joinTableRoutes st now qr fresh =
      Except.ok
        { table := table,
          session := some { tableId := table.id, sessionKey := fresh,
                            participants := 1, cartData := [], createdAt := now,
                            expiresAt := now + 4 * 60 * 60 * 1000 },
          store := updateTableStatus
            (createTableSession st
              { tableId := table.id, sessionKey := fresh, participants := 1,
                cartData := [], createdAt := now,
                expiresAt := now + 4 * 60 * 60 * 1000 }) table.id "active" } ∧
    (joinTableRoutes st now qr fresh).map (fun r => r.store.sessions.length) =
      Except.ok (st.sessions.length + 1) := by
  obtain ⟨hmem, htid, hexp⟩ := getActiveSessionByTableId_spec st now table.id
    session hact
  have hne : session.participants ≠ 0 := Nat.one_le_iff_ne_zero.mp hp
  have hbeq : (session.participants == 0) = false := by simpa using hne
  have hfind : st.sessions.find? (fun s => s.sessionKey == session.sessionKey) =
      some session := by
    apply find?_eq_some_of_unique _ _ _ hmem (by simp)
    intro b hb hpb
    exact List.inj_on_of_nodup_map hkeys hb hmem (by simpa using hpb)
  have hmapfind := find?_map_congr (fun s => s.sessionKey == session.sessionKey)
    (fun s =>
      if s.sessionKey == session.sessionKey then
        { s with cartData := session.cartData,
                 participants := session.participants + 1 }
      else s)
    (fun s => by by_cases h : (s.sessionKey == session.sessionKey) = true <;> simp [h])
    st.sessions session hfind
  have hdemo : joinTableDemo st now qr fresh =
      Except.ok
        { table := table,
          session := some { session with participants := session.participants + 1 },
          store := { st with sessions := st.sessions.map (fun s =>
            if s.sessionKey == session.sessionKey then
              { s with cartData := session.cartData,
                       participants := session.participants + 1 }
            else s) } } := by
    simp only [joinTableDemo, htab, hact, updateTableSessionCart, hbeq,
      Bool.false_eq_true, if_false, Option.getD_some]
    rw [hmapfind]
    simp
  have hroutes : joinTableRoutes st now qr fresh =
      Except.ok
        { table := table,
          session := some { tableId := table.id, sessionKey := fresh,
                            participants := 1, cartData := [], createdAt := now,
                            expiresAt := now + 4 * 60 * 60 * 1000 },
          store := updateTableStatus
            (createTableSession st
              { tableId := table.id, sessionKey := fresh, participants := 1,
                cartData := [], createdAt := now,
                expiresAt := now + 4 * 60 * 60 * 1000 }) table.id "active" } := by
    simp only [joinTableRoutes, htab]
  refine ⟨hdemo, ?_, hroutes, ?_⟩
  · rw [hdemo]
    simp [Except.map]
  · rw [hroutes]
    simp [Except.map, updateTableStatus, createTableSession]

/-- Witness for C9 (amended) on the concrete store (one active session for the
table; the demo join keeps one stored session, the authenticated join stores
two). -/
theorem join_session_reuse_amended_witness :
    (joinTableDemo exStore 10 "qr1" "key9").map
      (fun r => r.store.sessions.length) = Except.ok exStore.sessions.length ∧
    (joinTableRoutes exStore 10 "qr1" "key9").map
      (fun r => r.store.sessions.length) =
      Except.ok (exStore.sessions.length + 1) :=
  ⟨(join_session_reuse_amended exStore 10 "qr1" "key9" exTable exSession
      (by decide) (by decide) (by decide) (by decide)).2.1,
   (join_session_reuse_amended exStore 10 "qr1" "key9" exTable exSession
      (by decide) (by decide) (by decide) (by decide)).2.2.2⟩

/-- The stored order `o1` after the C5 status update. -/
def exOrderUpd : Order := { exOrder with status := "preparing", updatedAt := 10 }

/-- C5: evaluating the staff status-update at a concrete stored order (`o1`,
restaurant `r1`, session id `key1`): the stored status becomes `preparing` and
`updatedAt` advances, but the handler publishes nothing — `req.broadcast` is
undefined inside the route because the middleware that injects it is registered
only after the routes, so the `order_update` / `order_status_update` calls are
no-ops, against the claim's exactly-one-event-per-channel requirement. -/
theorem status_update_publishes_nothing :
    putOrderStatus exStore 10 "o1" "preparing" =
      Except.ok
        { order := exOrderUpd,
          store := { exStore with orders := [exOrderUpd] },
          publishes := [] } ∧
    exOrder.updatedAt < exOrderUpd.updatedAt := by
  decide

/-- A menu row found by id among the fetched available rows carries the store's
authoritative price for that id (menu ids are unique in the store). -/
theorem price_of_fetched (st : Store) (ids : List String)
    (hn : (st.menuItems.map (fun m => m.id)).Nodup) (x : String) (mi : MenuItem)
    (h : (getMenuItemsByIds st ids).find? (fun m => m.id == x) = some mi) :
    mi.price = menuPrice st x := by
  have hid : mi.id = x := by simpa using List.find?_some h
  have hmemf : mi ∈ getMenuItemsByIds st ids := List.mem_of_find?_eq_some h
  unfold getMenuItemsByIds at hmemf
  have hmem : mi ∈ st.menuItems := (List.mem_filter.mp hmemf).1
  have hprops := (List.mem_filter.mp hmemf).2
  have havail : mi.available = true := by
    simp only [Bool.and_eq_true] at hprops
    exact hprops.2
  have hfind2 : st.menuItems.find? (fun m => m.id == x && m.available) = some mi := by
    refine find?_eq_some_of_unique _ _ _ hmem ?_ ?_
    · simp [hid, havail]
    · intro b hb hpb
      simp only [Bool.and_eq_true, beq_iff_eq] at hpb
      exact List.inj_on_of_nodup_map hn hb hmem (by rw [hpb.1, hid])
  unfold menuPrice
  rw [hfind2]

/-- The order lines built by POST /api/orders list exactly the requested
quantities at the store's authoritative prices, and their totals sum to the sum of
authoritative price times requested quantity. -/
theorem buildOrderItems_spec (st : Store) (ids : List String)
    (hn : (st.menuItems.map (fun m => m.id)).Nodup) :
    ∀ (items : List SecureOrderItem) (out : List OrderItem),
      buildOrderItems (getMenuItemsByIds st ids) items = some out →
      (out.map (fun i => i.total)).sum =
        (items.map (fun i => menuPrice st i.menuItemId * (i.quantity : Int))).sum ∧
      out.map (fun i => (i.price, i.quantity)) =
        items.map (fun i => (menuPrice st i.menuItemId, i.quantity)) := by
  intro items
  induction items with
  | nil =>
    intro out h
    simp only [buildOrderItems] at h
    cases h
    simp
  | cons oi rest ih =>
    intro out h
    simp only [buildOrderItems] at h
    cases hfind : (getMenuItemsByIds st ids).find? (fun m => m.id == oi.menuItemId) with
    | none => rw [hfind] at h; cases h
    | some mi =>
      rw [hfind] at h
      cases hrest : buildOrderItems (getMenuItemsByIds st ids) rest with
      | none => rw [hrest] at h; cases h
      | some tail =>
        rw [hrest] at h
        cases h
        have hprice := price_of_fetched st ids hn oi.menuItemId mi hfind
        obtain ⟨ih1, ih2⟩ := ih tail hrest
        constructor
        · simp [ih1, hprice]
        · simp [ih2, hprice]

/-- Parsing an order body only reads the fields that survive price stripping. -/
theorem parseSecureOrder_strip (r : RawOrder) :
    parseSecureOrder (stripClientPrices r) = parseSecureOrder r := by
  unfold parseSecureOrder stripClientPrices
  simp only [List.all_map, List.map_map]
  rfl

/-- C1: an accepted order's stored totalAmount is the sum over the requested items
of the store's authoritative menu price times the requested quantity; the stored
lines carry exactly those prices and quantities; and any client-supplied price
field is invisible to the parse, hence to the stored order. -/
theorem order_total_is_server_priced (st : Store) (now : Nat) (newId : String)
    (raw : RawOrder) (sec : SecureOrder) (res : HttpOk)
    (hn : (st.menuItems.map (fun m => m.id)).Nodup)
    (hparse : parseSecureOrder raw = some sec)
    (hok : postOrder st now newId sec = Except.ok res) :
    res.order.totalAmount =
      (sec.items.map (fun i => menuPrice st i.menuItemId * (i.quantity : Int))).sum ∧
    res.order.items.map (fun i => (i.price, i.quantity)) =
      sec.items.map (fun i => (menuPrice st i.menuItemId, i.quantity)) ∧
    (∀ raw2, stripClientPrices raw2 = stripClientPrices raw →
      parseSecureOrder raw2 = some sec) := by
  have hstrip : ∀ raw2, stripClientPrices raw2 = stripClientPrices raw →
      parseSecureOrder raw2 = some sec := by
    intro raw2 h2
    rw [← parseSecureOrder_strip raw2, h2, parseSecureOrder_strip raw]
    exact hparse
  simp only [postOrder] at hok
  split at hok
  · cases hok
  · split at hok
    · cases hok
    · split at hok
      · cases hok
      · split at hok
        · cases hok
        · split at hok
          · cases hok
          · split at hok
            · cases hok
            next items hbuild =>
              have hres := Except.ok.inj hok
              subst hres
              obtain ⟨h1, h2⟩ := buildOrderItems_spec st
                (sec.items.map (fun i => i.menuItemId)) hn sec.items items hbuild
              exact ⟨h1, h2, hstrip⟩

/-- Table of the C1 witness. -/
def wTable : Table :=
  { id := "00000000-0000-0000-0000-0000000000aa",
    restaurantId := "00000000-0000-0000-0000-0000000000bb",
    qrCode := "qr", status := "available" }

/-- Menu row of the C1 witness: 12.99 (1299 cents), available. -/
def wMenuItem : MenuItem :=
  { id := "00000000-0000-0000-0000-0000000000cc",
    restaurantId := "00000000-0000-0000-0000-0000000000bb",
    name := "Burger", price := 1299, available := true }

/-- Store of the C1 witness. -/
def wStore : Store :=
  { restaurants := [], tables := [wTable], menuItems := [wMenuItem],
    sessions := [], orders := [] }

/-- Inbound body of the C1 witness: two burgers, with a bogus client price of 1
cent on the line and a bogus client total of 7 cents. -/
def wRaw : RawOrder :=
  { tableId := wTable.id, restaurantId := wTable.restaurantId, sessionId := none,
    items := [{ menuItemId := wMenuItem.id, quantity := 2, price := some 1 }],
    specialInstructions := none, totalAmount := some 7 }

/-- Parsed secure order of the C1 witness. -/
def wSec : SecureOrder :=
  { tableId := wTable.id, restaurantId := wTable.restaurantId, sessionId := none,
    items := [{ menuItemId := wMenuItem.id, quantity := 2 }],
    specialInstructions := none }

/-- Stored order of the C1 witness: priced 2 × 1299 = 2598 server-side. -/
def wOrder : Order :=
  { id := "o9", tableId := wTable.id, restaurantId := wTable.restaurantId,
    sessionId := none,
    items := [{ id := wMenuItem.id, name := "Burger", price := 1299,
                quantity := 2, total := 2598 }],
    totalAmount := 2598, status := "received", specialInstructions := none,
    createdAt := 99, updatedAt := 99 }

/-- Handler result of the C1 witness (no publish: `req.broadcast` is undefined in
the route, see `reqBroadcastDefined`). -/
def wRes : HttpOk :=
  { order := wOrder, store := { wStore with orders := [wOrder] },
    publishes := [] }

/-- Witness for C1: the concrete order run is accepted and its stored total equals
the authoritative price times quantity, ignoring the client-supplied prices. -/
theorem order_total_is_server_priced_witness :
    ((wStore.menuItems.map (fun m => m.id)).Nodup ∧
      parseSecureOrder wRaw = some wSec ∧
      postOrder wStore 99 "o9" wSec = Except.ok wRes) ∧
    wRes.order.totalAmount =
      (wSec.items.map (fun i => menuPrice wStore i.menuItemId * (i.quantity : Int))).sum ∧
    wRes.order.items.map (fun i => (i.price, i.quantity)) =
      wSec.items.map (fun i => (menuPrice wStore i.menuItemId, i.quantity)) :=
  ⟨⟨by decide, by decide, by decide⟩,
   (order_total_is_server_priced wStore 99 "o9" wRaw wSec wRes (by decide)
     (by decide) (by decide)).1,
   (order_total_is_server_priced wStore 99 "o9" wRaw wSec wRes (by decide)
     (by decide) (by decide)).2.1⟩

end Dine
